import Mathlib

/-!
Shallow embedding of `src/main.rs` of the `sentimental` sentiment-analysis
CLI. Pure logic (classification, score selection, config fallback, line
filtering and numbering) is translated directly from the Rust source.
`f64` scores and thresholds are modelled as `ℚ` (the source only compares
and stores them; NaN never arises in the properties considered).
The external VADER scorer (`SentimentIntensityAnalyzer::polarity_scores`)
is an opaque collaborator: it is modelled as a parameter mapping a text to
a partial map from score keys to values, matching the Rust
`HashMap<&str, f64>` accessed with `get(k).unwrap_or(&0.0)`.
-/

set_option autoImplicit false
set_option linter.unusedVariables false

/-- `AnalysisConfig` struct, src/main.rs lines 15-21. -/
structure AnalysisConfig where
  positive_threshold : ℚ
  negative_threshold : ℚ
  include_compound : Bool
  include_individual : Bool
  deriving Repr, DecidableEq

/-- `LoggingConfig` struct, src/main.rs lines 23-27. -/
structure LoggingConfig where
  level : String
  file : String
  deriving Repr, DecidableEq

/-- `Config` struct, src/main.rs lines 9-13. -/
structure Config where
  analysis : AnalysisConfig
  logging : LoggingConfig
  deriving Repr, DecidableEq

/-- `SentimentScores` struct, src/main.rs lines 37-43: four optional scores. -/
structure SentimentScores where
  compound : Option ℚ
  positive : Option ℚ
  negative : Option ℚ
  neutral : Option ℚ
  deriving Repr, DecidableEq

/-- `SentimentResult` struct, src/main.rs lines 30-35. -/
structure SentimentResult where
  text : String
  classification : String
  scores : SentimentScores
  deriving Repr, DecidableEq

/-- `SentimentError` enum, src/main.rs lines 46-59. Error payloads are
modelled as their display strings. -/
inductive SentimentError where
  | configError (msg : String)
  | ioError (msg : String)
  | yamlError (msg : String)
  | loggingError (msg : String)
  deriving Repr, DecidableEq

/-- The opaque scorer: text to partial map from score keys
(compound, pos, neg, neu) to values, as returned by
`analyzer.polarity_scores(text)` (a `HashMap<&str, f64>`). -/
def Scorer : Type := String → String → Option ℚ

/-- `classify_sentiment`, src/main.rs lines 130-138: first compare
`score >= positive_threshold`, then `score <= negative_threshold`,
else Neutral. -/
def classify_sentiment (score : ℚ) (config : AnalysisConfig) : String :=
  if score ≥ config.positive_threshold then "Positive"
  else if score ≤ config.negative_threshold then "Negative"
  else "Neutral"

/-- `analyze_text`, src/main.rs lines 141-179: extract the four scores
with `get(k).unwrap_or(&0.0)`, classify the compound score, and populate
the optional score fields per the two inclusion flags. There is no
emptiness check: every text yields a `SentimentResult`. -/
def analyze_text (scorer : Scorer) (text : String) (config : AnalysisConfig) :
    SentimentResult :=
  let scores := scorer text
  let compound := (scores "compound").getD 0
  let positive := (scores "pos").getD 0
  let negative := (scores "neg").getD 0
  let neutral := (scores "neu").getD 0
  let classification := classify_sentiment compound config
  { text := text
    classification := classification
    scores :=
      { compound := if config.include_compound then some compound else none
        positive := if config.include_individual then some positive else none
        negative := if config.include_individual then some negative else none
        neutral := if config.include_individual then some neutral else none } }

/-- A concrete scorer assigning score 0 to every key, used to instantiate
witness and counterexample statements. -/
def zero_scorer : Scorer := fun _ _ => some 0

/-- The default `AnalysisConfig` built inline in `process_text` and
`process_file` (src/main.rs lines 189-194 and 245-250). -/
def default_analysis : AnalysisConfig :=
  { positive_threshold := 0.05
    negative_threshold := -0.05
    include_compound := true
    include_individual := false }

/-- The default `Config` built inline on config-load failure
(src/main.rs lines 188-199 and 244-255). -/
def default_config : Config :=
  { analysis := default_analysis
    logging := { level := "info", file := "" } }

/-- Outcome of the config-load-with-fallback pattern shared by
`process_text` (src/main.rs lines 183-201) and `process_file`
(lines 240-257): on success the loaded config is used; on any error the
hardcoded default `Config` is substituted and a warning is logged
(the returned Bool records whether the warning was emitted). -/
def resolve_config (loaded : Except SentimentError Config) : Config × Bool :=
  match loaded with
  | Except.ok cfg => (cfg, false)
  | Except.error _ => (default_config, true)

/-- `process_text`, src/main.rs lines 182-236: resolve the config (with
default fallback), analyze the given text, and emit exactly one result.
There is no emptiness skip in this path. The Bool records the config
warning. -/
def process_text (loaded : Except SentimentError Config) (scorer : Scorer)
    (text : String) : List SentimentResult × Bool :=
  let rc := resolve_config loaded
  ([analyze_text scorer text rc.1.analysis], rc.2)

/-- Rust `str::trim` as used in `l.trim().is_empty()`
(src/main.rs line 269), modelled on the character list: drop leading and
trailing whitespace. Whitespace is the ASCII whitespace set; the inputs in
the properties below are ASCII, where Rust's Unicode `char::is_whitespace`
agrees with `Char.isWhitespace`. -/
def trim_chars (s : String) : List Char :=
  ((s.data.dropWhile Char.isWhitespace).reverse.dropWhile
    Char.isWhitespace).reverse

/-- `l.trim().is_empty()` from src/main.rs line 269: the line is blank
after trimming surrounding whitespace. -/
def is_blank (s : String) : Bool := (trim_chars s).isEmpty

/-- Per-line results of `process_file`, src/main.rs lines 268-298: the file
content is split into lines, lines blank after trimming are filtered out,
and only THEN is the sequence enumerated; each emitted result is labelled
`Line (i+1)` where `i` is the index in the filtered sequence. -/
def process_file_results (scorer : Scorer) (fileLines : List String)
    (config : AnalysisConfig) : List (Nat × SentimentResult) :=
  ((fileLines.filter (fun l => !(is_blank l))).enum).map
    (fun p => (p.1 + 1, analyze_text scorer p.2 config))

/-- `process_file`, src/main.rs lines 239-301: config resolution with
default fallback, then per-line analysis of the (already read) file lines. -/
def process_file (loaded : Except SentimentError Config) (scorer : Scorer)
    (fileLines : List String) : List (Nat × SentimentResult) × Bool :=
  let rc := resolve_config loaded
  (process_file_results scorer fileLines rc.1.analysis, rc.2)

/-- Partial analysis section as produced by the YAML surface syntax before
field checking. serde derives `Deserialize` for `AnalysisConfig`
(src/main.rs lines 15-21) with no field defaults, so every field is
required for the parse to succeed. -/
structure AnalysisDoc where
  positive_threshold : Option ℚ
  negative_threshold : Option ℚ
  include_compound : Option Bool
  include_individual : Option Bool
  deriving Repr, DecidableEq

/-- Partial logging section; both fields of `LoggingConfig`
(src/main.rs lines 23-27) are required. -/
structure LoggingDoc where
  level : Option String
  file : Option String
  deriving Repr, DecidableEq

/-- Partial top-level document; both sections of `Config`
(src/main.rs lines 9-13) are required. -/
structure ConfigDoc where
  analysis : Option AnalysisDoc
  logging : Option LoggingDoc
  deriving Repr, DecidableEq

/-- Field checking for the derived `Deserialize` of `AnalysisConfig`:
succeeds exactly when every field is present, with the fields passed
through unchanged (no implicit defaults). -/
def parse_analysis_doc : AnalysisDoc → Except String AnalysisConfig
  | ⟨some p, some n, some ic, some ii⟩ => Except.ok ⟨p, n, ic, ii⟩
  | _ => Except.error "missing field in analysis"

/-- Field checking for the derived `Deserialize` of `LoggingConfig`. -/
def parse_logging_doc : LoggingDoc → Except String LoggingConfig
  | ⟨some lv, some lf⟩ => Except.ok ⟨lv, lf⟩
  | _ => Except.error "missing field in logging"

/-- Field checking for the derived `Deserialize` of `Config`: both
sections must be present and themselves parse. -/
def parse_config_doc : ConfigDoc → Except String Config
  | ⟨some a, some l⟩ =>
    match parse_analysis_doc a, parse_logging_doc l with
    | Except.ok ac, Except.ok lc => Except.ok ⟨ac, lc⟩
    | Except.error e, _ => Except.error e
    | _, Except.error e => Except.error e
  | _ => Except.error "missing section"

/-- `load_config`, src/main.rs lines 94-98: read the file (an unreadable
file yields `IoError` via `?`), parse the content as YAML (a malformed
document yields `YamlError` via `?`), and return the parsed config
unchanged. The file-read outcome and the YAML surface syntax are
external, so they enter as parameters: `read_result` is the outcome of
`fs::read_to_string` and `yaml_front` maps raw content to the partial
document whose fields the derived deserializer above then requires. -/
def load_config (read_result : Except String String)
    (yaml_front : String → Except String ConfigDoc) :
    Except SentimentError Config :=
  match read_result with
  | Except.error e => Except.error (SentimentError.ioError e)
  | Except.ok content =>
    match yaml_front content with
    | Except.error e => Except.error (SentimentError.yamlError e)
    | Except.ok doc =>
      match parse_config_doc doc with
      | Except.error e => Except.error (SentimentError.yamlError e)
      | Except.ok cfg => Except.ok cfg

/-- The printed display form of an analyzed text:
`println!("Text: {}", result.text)` (src/main.rs lines 216 and 278)
prints the stored text unchanged — no truncation occurs anywhere. -/
def display_text (r : SentimentResult) : String := r.text

/-- C1: for thresholds with `negative_threshold < positive_threshold`,
`classify_sentiment` returns Positive iff the score is ≥ the positive
threshold, Negative iff the score is ≤ the negative threshold (and hence
below the positive one), Neutral iff the score lies strictly between the
two, and it always returns one of the three labels. -/
theorem classify_sentiment_spec (c p n : ℚ) (ic ii : Bool) (hpn : n < p) :
    (classify_sentiment c ⟨p, n, ic, ii⟩ = "Positive" ↔ p ≤ c) ∧
    (classify_sentiment c ⟨p, n, ic, ii⟩ = "Negative" ↔ c ≤ n ∧ c < p) ∧
    (classify_sentiment c ⟨p, n, ic, ii⟩ = "Neutral" ↔ n < c ∧ c < p) ∧
    (classify_sentiment c ⟨p, n, ic, ii⟩ = "Positive" ∨
      classify_sentiment c ⟨p, n, ic, ii⟩ = "Negative" ∨
      classify_sentiment c ⟨p, n, ic, ii⟩ = "Neutral") := by
  unfold classify_sentiment
  split_ifs with h1 h2
  · exact ⟨⟨fun _ => h1, fun _ => rfl⟩,
      ⟨fun h => absurd h (by decide), fun h => absurd h1 (not_le.mpr h.2)⟩,
      ⟨fun h => absurd h (by decide), fun h => absurd h1 (not_le.mpr h.2)⟩,
      Or.inl rfl⟩
  · exact ⟨⟨fun h => absurd h (by decide), fun h => absurd h h1⟩,
      ⟨fun _ => ⟨h2, lt_of_not_le h1⟩, fun _ => rfl⟩,
      ⟨fun h => absurd h (by decide), fun h => absurd h.1 (not_lt.mpr h2)⟩,
      Or.inr (Or.inl rfl)⟩
  · exact ⟨⟨fun h => absurd h (by decide), fun h => absurd h h1⟩,
      ⟨fun h => absurd h (by decide), fun h => absurd h.1 h2⟩,
      ⟨fun _ => ⟨lt_of_not_le h2, lt_of_not_le h1⟩, fun _ => rfl⟩,
      Or.inr (Or.inr rfl)⟩

/-- Witness for C1 at compound 0 with the default thresholds 0.05 / -0.05. -/
theorem classify_sentiment_spec_witness :
    ((-0.05 : ℚ) < 0.05) ∧
      (classify_sentiment 0 ⟨0.05, -0.05, true, false⟩ = "Neutral" ↔
        (-0.05 : ℚ) < 0 ∧ (0 : ℚ) < 0.05) :=
  ⟨by norm_num, (classify_sentiment_spec 0 0.05 (-0.05) true false (by norm_num)).2.2.1⟩

/-- C6: the optional score fields are populated selectively by the
inclusion flags: a disabled flag leaves the field(s) `none` (absent, not
zero), an enabled flag makes them `some` of the extracted score. -/
theorem analyze_text_selective (scorer : Scorer) (text : String)
    (config : AnalysisConfig) :
    (config.include_compound = false →
      (analyze_text scorer text config).scores.compound = none) ∧
    (config.include_compound = true →
      (analyze_text scorer text config).scores.compound =
        some ((scorer text "compound").getD 0)) ∧
    (config.include_individual = false →
      (analyze_text scorer text config).scores.positive = none ∧
      (analyze_text scorer text config).scores.negative = none ∧
      (analyze_text scorer text config).scores.neutral = none) ∧
    (config.include_individual = true →
      (analyze_text scorer text config).scores.positive =
        some ((scorer text "pos").getD 0) ∧
      (analyze_text scorer text config).scores.negative =
        some ((scorer text "neg").getD 0) ∧
      (analyze_text scorer text config).scores.neutral =
        some ((scorer text "neu").getD 0)) := by
  unfold analyze_text
  refine ⟨fun h => ?_, fun h => ?_, fun h => ?_, fun h => ?_⟩ <;>
    simp [h]

/-- Witness for C6 with the default config (compound on, individual off). -/
theorem analyze_text_selective_witness :
    (analyze_text zero_scorer "Great day!" default_analysis).scores.compound =
      some ((zero_scorer "Great day!" "compound").getD 0) ∧
    (analyze_text zero_scorer "Great day!" default_analysis).scores.positive = none ∧
    (analyze_text zero_scorer "Great day!" default_analysis).scores.negative = none ∧
    (analyze_text zero_scorer "Great day!" default_analysis).scores.neutral = none := by
  have h := analyze_text_selective zero_scorer "Great day!" default_analysis
  exact ⟨h.2.1 rfl, h.2.2.1 rfl⟩

/-- C8: ties at exact thresholds. With equal thresholds, a score equal to
the shared value classifies Positive (the ≥ branch wins); in general a
score equal to the positive threshold is Positive, and a score equal to a
strictly smaller negative threshold is Negative. -/
theorem classify_sentiment_ties (p n : ℚ) (ic ii : Bool) (hn : n < p) :
    classify_sentiment p ⟨p, p, ic, ii⟩ = "Positive" ∧
    classify_sentiment p ⟨p, n, ic, ii⟩ = "Positive" ∧
    classify_sentiment n ⟨p, n, ic, ii⟩ = "Negative" := by
  unfold classify_sentiment
  refine ⟨by simp, by simp, ?_⟩
  rw [if_neg (by exact not_le.mpr hn), if_pos le_rfl]

/-- Witness for C8 at the default thresholds 0.05 / -0.05. -/
theorem classify_sentiment_ties_witness :
    classify_sentiment 0.05 ⟨0.05, 0.05, true, false⟩ = "Positive" ∧
    classify_sentiment 0.05 ⟨0.05, -0.05, true, false⟩ = "Positive" ∧
    classify_sentiment (-0.05) ⟨0.05, -0.05, true, false⟩ = "Negative" :=
  classify_sentiment_ties 0.05 (-0.05) true false (by norm_num)

/-- C9: the analysis result depends only on the scorer output for the
analyzed text, so with a deterministic scorer, analyzing the same text
with the same config twice yields identical `SentimentResult` values. -/
theorem analyze_text_deterministic (s1 s2 : Scorer) (text : String)
    (config : AnalysisConfig) (h : s1 text = s2 text) :
    analyze_text s1 text config = analyze_text s2 text config := by
  unfold analyze_text
  rw [h]

/-- Witness for C9: two runs over the same scorer and text coincide. -/
theorem analyze_text_deterministic_witness :
    analyze_text zero_scorer "Great day!" default_analysis =
      analyze_text zero_scorer "Great day!" default_analysis :=
  analyze_text_deterministic zero_scorer zero_scorer "Great day!"
    default_analysis rfl

theorem map_fst_enumFrom {α β : Type} (g : Nat × α → β) (k : Nat) (l : List α) :
    ((List.enumFrom k l).map (fun p => (p.1 + 1, g p))).map Prod.fst =
      List.range' (k + 1) l.length := by
  induction l generalizing k with
  | nil => rfl
  | cons a as ih => simp [List.enumFrom, List.range'_succ, ih]

/-- Counterexample to C2: on the file whose lines are
`["", "Great day!", "  ", "Terrible news"]`, two results are emitted but
they are numbered Line 1 and Line 2 — the code enumerates AFTER filtering
out blank lines — not Line 2 and Line 4 as the claim states. -/
theorem process_file_numbering_counterexample :
    (process_file_results zero_scorer ["", "Great day!", "  ", "Terrible news"]
        default_analysis).map Prod.fst = [1, 2] ∧
    (process_file_results zero_scorer ["", "Great day!", "  ", "Terrible news"]
        default_analysis).map Prod.fst ≠ [2, 4] := by
  constructor
  · rfl
  · intro h
    have : (1 : Nat) = 2 := List.head_eq_of_cons_eq (by rw [← h]; rfl)
    exact absurd this (by decide)

/-- C2 amended: in file mode, lines blank after trimming are skipped and do
NOT count toward numbering: the emitted results are numbered consecutively
1..k over the k non-blank lines, so the example file yields results
numbered Line 1 and Line 2. -/
theorem process_file_numbering (scorer : Scorer) (fileLines : List String)
    (config : AnalysisConfig) :
    (process_file_results scorer fileLines config).map Prod.fst =
      List.range' 1 (fileLines.filter (fun l => !(is_blank l))).length ∧
    (process_file_results scorer fileLines config).length =
      (fileLines.filter (fun l => !(is_blank l))).length ∧
    (process_file_results zero_scorer ["", "Great day!", "  ", "Terrible news"]
        default_analysis).map Prod.fst = [1, 2] := by
  refine ⟨?_, ?_, rfl⟩
  · unfold process_file_results List.enum
    exact map_fst_enumFrom _ 0 _
  · simp [process_file_results]

/-- Counterexample to C3: analyzing a whitespace-only text is NOT skipped:
`process_text` still emits exactly one result (not zero), and
`analyze_text` constructs a full `SentimentResult` for it. -/
theorem empty_text_skip_counterexample :
    (process_text (Except.ok default_config) zero_scorer "   ").1.length = 1 ∧
    (process_text (Except.ok default_config) zero_scorer "   ").1.length ≠ 0 ∧
    (analyze_text zero_scorer "   " default_analysis).classification =
      "Neutral" := by
  refine ⟨rfl, by decide, ?_⟩
  show classify_sentiment 0 default_analysis = "Neutral"
  unfold classify_sentiment default_analysis
  rw [if_neg (by norm_num), if_neg (by norm_num)]

/-- C3 amended: the single-text analysis path has no emptiness skip — it
always constructs and emits exactly one result, even for a text that is
blank after trimming; only file mode skips such lines (a blank line
contributes nothing to the file results). -/
theorem empty_text_not_skipped (loaded : Except SentimentError Config)
    (scorer : Scorer) (text : String) (h : is_blank text = true) :
    (process_text loaded scorer text).1 =
      [analyze_text scorer text (resolve_config loaded).1.analysis] ∧
    (∀ config fileLines, process_file_results scorer (text :: fileLines) config =
      process_file_results scorer fileLines config) := by
  refine ⟨rfl, fun config fileLines => ?_⟩
  unfold process_file_results
  rw [List.filter_cons]
  simp [h]

/-- Witness for C3 (amended) at the whitespace-only text. -/
theorem empty_text_not_skipped_witness :
    process_file_results zero_scorer ("   " :: ["Great day!"]) default_analysis =
      process_file_results zero_scorer ["Great day!"] default_analysis :=
  (empty_text_not_skipped (Except.ok default_config) zero_scorer "   "
    (by decide)).2 default_analysis ["Great day!"]

/-- C4: on any config-load error, the caller substitutes exactly the
hardcoded default `Config` (thresholds 0.05 / -0.05, compound on,
individual off, logging level info, empty log file), records the warning,
and both the single-text and file pipelines still complete: the text
pipeline emits its one result and the file pipeline produces the same
results as with the default analysis config. -/
theorem config_fallback (e : SentimentError) (scorer : Scorer) (text : String)
    (fileLines : List String) :
    resolve_config (Except.error e) =
      ({ analysis := { positive_threshold := 0.05, negative_threshold := -0.05,
                       include_compound := true, include_individual := false },
         logging := { level := "info", file := "" } }, true) ∧
    (process_text (Except.error e) scorer text).1.length = 1 ∧
    (process_file (Except.error e) scorer fileLines).1 =
      process_file_results scorer fileLines default_analysis :=
  ⟨rfl, rfl, rfl⟩

/-- Counterexample to C5: a 60-character text is displayed unchanged; its
display form has length 60, exceeding both candidate maxima (50 and 57),
so no fixed maximum bounds the display length and no truncation occurs. -/
theorem display_truncation_counterexample :
    display_text (analyze_text zero_scorer
        "aaaaaaaaaaaaaaaaaaaaaaaaaaaaaaaaaaaaaaaaaaaaaaaaaaaaaaaaaaaa"
        default_analysis) =
      "aaaaaaaaaaaaaaaaaaaaaaaaaaaaaaaaaaaaaaaaaaaaaaaaaaaaaaaaaaaa" ∧
    (display_text (analyze_text zero_scorer
        "aaaaaaaaaaaaaaaaaaaaaaaaaaaaaaaaaaaaaaaaaaaaaaaaaaaaaaaaaaaa"
        default_analysis)).length = 60 ∧
    50 < 60 ∧ 57 < 60 := by
  exact ⟨rfl, by decide, by decide, by decide⟩

/-- C5 amended: the printed display form of every analyzed text is the
original text unchanged — the code applies no truncation and enforces no
maximum display length. -/
theorem display_text_unchanged (scorer : Scorer) (text : String)
    (config : AnalysisConfig) :
    display_text (analyze_text scorer text config) = text ∧
    (display_text (analyze_text scorer text config)).length = text.length :=
  ⟨rfl, rfl⟩

theorem parse_analysis_doc_ok (a : AnalysisDoc) (ac : AnalysisConfig)
    (h : parse_analysis_doc a = Except.ok ac) :
    a = ⟨some ac.positive_threshold, some ac.negative_threshold,
         some ac.include_compound, some ac.include_individual⟩ := by
  obtain ⟨a1, a2, a3, a4⟩ := a
  cases a1 <;> cases a2 <;> cases a3 <;> cases a4 <;>
    simp_all [parse_analysis_doc] <;> subst h <;> simp

theorem parse_logging_doc_ok (l : LoggingDoc) (lc : LoggingConfig)
    (h : parse_logging_doc l = Except.ok lc) :
    l = ⟨some lc.level, some lc.file⟩ := by
  obtain ⟨l1, l2⟩ := l
  cases l1 <;> cases l2 <;> simp_all [parse_logging_doc] <;> subst h <;> simp

theorem parse_config_doc_ok (d : ConfigDoc) (cfg : Config)
    (h : parse_config_doc d = Except.ok cfg) :
    d = ⟨some ⟨some cfg.analysis.positive_threshold,
               some cfg.analysis.negative_threshold,
               some cfg.analysis.include_compound,
               some cfg.analysis.include_individual⟩,
         some ⟨some cfg.logging.level, some cfg.logging.file⟩⟩ := by
  obtain ⟨od, ol⟩ := d
  cases od with
  | none => simp [parse_config_doc] at h
  | some a =>
    cases ol with
    | none => simp [parse_config_doc] at h
    | some l =>
      rcases ha : parse_analysis_doc a with e | ac
      · simp [parse_config_doc, ha] at h
      · rcases hl : parse_logging_doc l with e | lc
        · simp [parse_config_doc, ha, hl] at h
        · simp only [parse_config_doc, ha, hl] at h
          cases h
          rw [parse_analysis_doc_ok a ac ha, parse_logging_doc_ok l lc hl]

/-- C7: `load_config` fails with an IO error when the file read fails,
fails with a YAML error when the content is malformed or (via the derived
deserializer) any required field is missing, and on success hands back the
parsed `Config` unchanged with no implicit defaults: a successful parse
forces every field of the document to have been present, with the values
passed through verbatim. -/
theorem load_config_spec (err content msg : String)
    (yaml_front : String → Except String ConfigDoc)
    (d : ConfigDoc) (cfg : Config)
    (p n : ℚ) (ic ii : Bool) (lv lf : String) :
    (load_config (Except.error err) yaml_front =
      Except.error (SentimentError.ioError err)) ∧
    (yaml_front content = Except.error msg →
      load_config (Except.ok content) yaml_front =
        Except.error (SentimentError.yamlError msg)) ∧
    (yaml_front content = Except.ok d →
      parse_config_doc d = Except.error msg →
      load_config (Except.ok content) yaml_front =
        Except.error (SentimentError.yamlError msg)) ∧
    (yaml_front content = Except.ok d →
      parse_config_doc d = Except.ok cfg →
      load_config (Except.ok content) yaml_front = Except.ok cfg) ∧
    (parse_config_doc d = Except.ok cfg →
      d = ⟨some ⟨some cfg.analysis.positive_threshold,
                 some cfg.analysis.negative_threshold,
                 some cfg.analysis.include_compound,
                 some cfg.analysis.include_individual⟩,
           some ⟨some cfg.logging.level, some cfg.logging.file⟩⟩) ∧
    (parse_config_doc ⟨some ⟨some p, some n, some ic, some ii⟩,
        some ⟨some lv, some lf⟩⟩ =
      Except.ok ⟨⟨p, n, ic, ii⟩, ⟨lv, lf⟩⟩) := by
  refine ⟨rfl, fun h => ?_, fun h1 h2 => ?_, fun h1 h2 => ?_,
    parse_config_doc_ok d cfg, rfl⟩
  · simp [load_config, h]
  · simp [load_config, h1, h2]
  · simp [load_config, h1, h2]

/-- Witness for C7: a failed read yields IoError, a failed parse yields
YamlError, and a complete document parses to exactly its field values. -/
theorem load_config_spec_witness :
    load_config (Except.error "unreadable") (fun _ => Except.error "bad") =
      Except.error (SentimentError.ioError "unreadable") ∧
    load_config (Except.ok "x") (fun _ => Except.error "bad") =
      Except.error (SentimentError.yamlError "bad") ∧
    parse_config_doc ⟨some ⟨some 0.05, some (-0.05), some true, some false⟩,
        some ⟨some "info", some ""⟩⟩ =
      Except.ok ⟨⟨0.05, -0.05, true, false⟩, ⟨"info", ""⟩⟩ := by
  have h := load_config_spec "unreadable" "x" "bad"
    (fun _ => Except.error "bad") ⟨none, none⟩ default_config
    0.05 (-0.05) true false "info" ""
  exact ⟨h.1, h.2.1 rfl, h.2.2.2.2.2⟩

/-- C10: no operation validates the threshold ordering: a complete config
document with positive_threshold ≤ negative_threshold parses with no
error, the pipeline accepts the inverted pair and emits its result, and
since classification checks ≥ positive_threshold before
≤ negative_threshold, a score in the overlap classifies Positive. -/
theorem no_threshold_validation (p n c : ℚ) (ic ii : Bool) (lv lf : String)
    (scorer : Scorer) (text : String) (hpn : p ≤ n) (hc : p ≤ c) :
    parse_config_doc ⟨some ⟨some p, some n, some ic, some ii⟩,
        some ⟨some lv, some lf⟩⟩ =
      Except.ok ⟨⟨p, n, ic, ii⟩, ⟨lv, lf⟩⟩ ∧
    (process_text (Except.ok ⟨⟨p, n, ic, ii⟩, ⟨lv, lf⟩⟩) scorer text).1 =
      [analyze_text scorer text ⟨p, n, ic, ii⟩] ∧
    classify_sentiment c ⟨p, n, ic, ii⟩ = "Positive" := by
  refine ⟨rfl, rfl, ?_⟩
  unfold classify_sentiment
  rw [if_pos hc]

/-- Witness for C10 at inverted thresholds 0.1 / 0.2 and the overlap score
0.15, which classifies Positive. -/
theorem no_threshold_validation_witness :
    classify_sentiment 0.15 ⟨0.1, 0.2, true, false⟩ = "Positive" :=
  (no_threshold_validation 0.1 0.2 0.15 true false "info" "" zero_scorer "x"
    (by norm_num) (by norm_num)).2.2
